import Mathlib

/-!
Verification of the inverted-pendulum-on-a-cart simulation entity
(`dynamicgraph::tutorial::InvertedPendulum`, declared in
`src/include/dynamic-graph/tutorial/inverted-pendulum.hh`).

The repository ships only the class header: the inline parameter accessors,
the signal declarations and the private fields are source code; the bodies
of the constructor, of `incr` and of `computeDynamics` live in a translation
unit that is not part of the sources, so those are modelled from the spec
(sections 4.1 to 4.3), which itself matches the equations of motion written
in the header's documentation block.

Doubles are modelled as real numbers.  IEEE non-finite outcomes (division
by a zero determinant) are modelled separately by an `Option`-valued step
that is `none` exactly when the mass-matrix determinant vanishes.
-/

namespace DynamicGraphTutorial

noncomputable section

/-- Modelled from the spec: the fixed gravitational constant `g` of
`PhysicalParameters` (its defining constant `InvertedPendulum::gravity` is in
the missing translation unit; the spec's test properties fix `g = 9.81`). -/
def gravity : ℝ := 9.81

/-- The parameter fields of `InvertedPendulum` (header, private section):
cart mass `M`, pendulum mass `m`, pendulum length `l`, viscosity `λ`. -/
structure Params where
  cartMass : ℝ
  pendulumMass : ℝ
  pendulumLength : ℝ
  viscosity : ℝ

/-- The state 4-vector `(x, θ, ẋ, θ̇)` read into named components. -/
structure PState where
  x : ℝ
  θ : ℝ
  dx : ℝ
  dθ : ℝ

/-- Determinant of the mass matrix
`M(q) = [[M+m, −m·l·cos θ], [−m·l·cos θ, m·l²]]`:
`(M+m)·m·l² − (m·l·cos θ)²`. -/
def detM (p : Params) (θ : ℝ) : ℝ :=
  (p.cartMass + p.pendulumMass) * (p.pendulumMass * p.pendulumLength ^ 2)
    - (p.pendulumMass * p.pendulumLength * Real.cos θ) ^ 2

/-- Modelled from the spec: `InvertedPendulum::computeDynamics` (body in the
missing translation unit).  Spec 4.1: assemble
`M(q)·q̈ = τ − N(q,q̇)·q̇ − G(q)` with
`N(q,q̇) = [[λ, m·l·θ̇·sin θ], [0, λ]]`, `G(q) = (0, −m·l·g·sin θ)`,
`τ = (F, 0)`, and solve for `q̈ = (ẍ, θ̈)` by closed-form 2×2 inversion. -/
def computeDynamics (p : Params) (θ dx dθ F : ℝ) : ℝ × ℝ :=
  let m := p.pendulumMass
  let l := p.pendulumLength
  let cθ := Real.cos θ
  let sθ := Real.sin θ
  let b1 := F - (p.viscosity * dx + m * l * dθ * sθ * dθ)
  let b2 := 0 - (0 * dx + p.viscosity * dθ) - (-(m * l * gravity * sθ))
  let d := detM p θ
  ((m * l ^ 2 * b1 + m * l * cθ * b2) / d,
   (m * l * cθ * b1 + (p.cartMass + m) * b2) / d)

/-- Modelled from the spec: the state-update step of `InvertedPendulum::incr`
(body in the missing translation unit).  Spec 4.2: `accel` from
`computeDynamics`, then `v' = (ẋ, θ̇) + accel·dt`, then `p' = (x, θ) + v'·dt`
with the already-updated velocity, result `(p'.x, p'.θ, v'.ẋ, v'.θ̇)`. -/
def incr (p : Params) (s : PState) (F dt : ℝ) : PState :=
  let a := computeDynamics p s.θ s.dx s.dθ F
  let dx' := s.dx + a.1 * dt
  let dθ' := s.dθ + a.2 * dt
  ⟨s.x + dx' * dt, s.θ + dθ' * dt, dx', dθ'⟩

/-- Modelled from the spec: the finiteness of a step in double arithmetic.
Spec 4.1/7: no singularity guard is applied, so when the determinant is zero
the unguarded divisions produce non-finite doubles (NaN/Inf) that propagate
silently; `none` stands for a state containing non-finite values. -/
def incrFinite (p : Params) (s : PState) (F dt : ℝ) : Option PState :=
  if detM p s.θ = 0 then none else some (incr p s F dt)

/-- Left multiplication by the mass matrix
`M(q) = [[M+m, −m·l·cos θ], [−m·l·cos θ, m·l²]]` of the spec (and of the
header's documentation block). -/
def massMatrixMul (p : Params) (θ ax aθ : ℝ) : ℝ × ℝ :=
  ((p.cartMass + p.pendulumMass) * ax
      - p.pendulumMass * p.pendulumLength * Real.cos θ * aθ,
   -(p.pendulumMass * p.pendulumLength * Real.cos θ) * ax
      + p.pendulumMass * p.pendulumLength ^ 2 * aθ)

/-- The right-hand side `τ − N(q,q̇)·q̇ − G(q)` of the spec's linear system,
with `N(q,q̇) = [[λ, m·l·θ̇·sin θ], [0, λ]]`, `G(q) = (0, −m·l·g·sin θ)` and
`τ = (F, 0)`. -/
def rhsVec (p : Params) (θ dx dθ F : ℝ) : ℝ × ℝ :=
  (F - (p.viscosity * dx + p.pendulumMass * p.pendulumLength * dθ * Real.sin θ * dθ),
   0 - (0 * dx + p.viscosity * dθ)
     - (-(p.pendulumMass * p.pendulumLength * gravity * Real.sin θ)))

/-- The `InvertedPendulum` entity: the private parameter fields and the state
held by the `stateSOUT` signal (a dynamically sized
`boost::numeric::ublas::vector<double>`, modelled as a list), the signal's
time stamp, and the upstream provider behind the plugged `forceSIN` input
port. -/
structure Entity where
  name : String
  cartMass_ : ℝ
  pendulumMass_ : ℝ
  pendulumLength_ : ℝ
  viscosity_ : ℝ
  stateVec : List ℝ
  stateTime : Int
  forceSIN : Int → List ℝ

/-- Modelled from the spec: the constructor `InvertedPendulum(inName)` (body
in the missing translation unit).  Spec 3: "State is created zero-valued at
construction of the simulation entity"; the initial parameter values are not
fixed by the spec and are taken as arguments, as is the upstream force
provider plugged into `forceSIN`. -/
def mkEntity (inName : String) (M0 m0 l0 vis0 : ℝ) (f : Int → List ℝ) : Entity :=
  ⟨inName, M0, m0, l0, vis0, List.replicate 4 0, 0, f⟩

/-- Header inline `InvertedPendulum::setCartMass`: `cartMass_ = inMass`. -/
def setCartMass (e : Entity) (inMass : ℝ) : Entity :=
  { e with cartMass_ := inMass }

/-- Header inline `InvertedPendulum::getCartMass`. -/
def getCartMass (e : Entity) : ℝ := e.cartMass_

/-- Header inline `InvertedPendulum::setPendulumMass`: `pendulumMass_ = inMass`. -/
def setPendulumMass (e : Entity) (inMass : ℝ) : Entity :=
  { e with pendulumMass_ := inMass }

/-- Header inline `InvertedPendulum::getPendulumMass`. -/
def getPendulumMass (e : Entity) : ℝ := e.pendulumMass_

/-- Header inline `InvertedPendulum::setPendulumLength`: `pendulumLength_ = inLength`. -/
def setPendulumLength (e : Entity) (inLength : ℝ) : Entity :=
  { e with pendulumLength_ := inLength }

/-- Header inline `InvertedPendulum::getPendulumLength`. -/
def getPendulumLength (e : Entity) : ℝ := e.pendulumLength_

/-- The parameter bundle currently stored in the entity's fields. -/
def Entity.params (e : Entity) : Params :=
  ⟨e.cartMass_, e.pendulumMass_, e.pendulumLength_, e.viscosity_⟩

/-- Read the 4 components of the stored state vector (out-of-range reads
default to 0; the invariant keeps the length at 4). -/
def readState (v : List ℝ) : PState :=
  ⟨v.getD 0 0, v.getD 1 0, v.getD 2 0, v.getD 3 0⟩

/-- Write a state back as a 4-component vector. -/
def writeState (s : PState) : List ℝ :=
  [s.x, s.θ, s.dx, s.dθ]

/-- Modelled from the spec: `InvertedPendulum::incr(inTimeStep)` (body in the
missing translation unit).  Spec 4.3: on an advance request the entity pulls
the control for the new time index from `forceSIN`, calls the integrator with
the stored state, the obtained control and the current parameters, replaces
the stored state with the result and tags the output cache with the new time
index. -/
def incrE (e : Entity) (inTimeStep : ℝ) : Entity :=
  let t := e.stateTime + 1
  let F := (e.forceSIN t).getD 0 0
  let s' := incr e.params (readState e.stateVec) F inTimeStep
  { e with stateVec := writeState s', stateTime := t }

/-- Modelled from the spec: a pull of the `stateSOUT` output port for time
index `t` (signal machinery in the host runtime, outside the sources).
Spec 2/5: on a cache hit (same time index) the cached value is returned with
no recomputation; on a miss the control is pulled and the integrator runs.
The third component counts how many times the dynamics was invoked (and
`forceSIN` pulled) during the call. -/
def pullState (e : Entity) (t : Int) (dt : ℝ) : List ℝ × Entity × Nat :=
  if e.stateTime = t then (e.stateVec, e, 0)
  else
    let F := (e.forceSIN t).getD 0 0
    let s' := incr e.params (readState e.stateVec) F dt
    let e' := { e with stateVec := writeState s', stateTime := t }
    (e'.stateVec, e', 1)

/-- The public operations of the class (header, public section): the three
parameter setters, `incr`, and reading the `stateSOUT` signal.  Getters,
`getClassName` and `state()` are `const` and excluded as non-mutating. -/
inductive PublicOp where
  | opSetCartMass : ℝ → PublicOp
  | opSetPendulumMass : ℝ → PublicOp
  | opSetPendulumLength : ℝ → PublicOp
  | opIncr : ℝ → PublicOp
  | opPullState : Int → ℝ → PublicOp

/-- Effect of a public operation on the entity. -/
def applyOp : PublicOp → Entity → Entity
  | PublicOp.opSetCartMass v, e => setCartMass e v
  | PublicOp.opSetPendulumMass v, e => setPendulumMass e v
  | PublicOp.opSetPendulumLength v, e => setPendulumLength e v
  | PublicOp.opIncr dt, e => incrE e dt
  | PublicOp.opPullState t dt, e => (pullState e t dt).2.1

/-- The trajectory of stored states along a sequence of advance calls with
the given time steps. -/
def runSteps : Entity → List ℝ → List (List ℝ)
  | _, [] => []
  | e, dt :: rest =>
    let e' := incrE e dt
    e'.stateVec :: runSteps e' rest

/-- Names for concrete entities used in closed instantiations. -/
def nameA : String := "IP"

/-- A second, different entity name. -/
def nameB : String := "IP2"

/-- Claim C1: `computeDynamics` returns the unique solution of the 2×2 linear
system `M(q)·q̈ = τ − N(q,q̇)·q̇ − G(q)` whenever the determinant
`(M+m)·m·l² − (m·l·cos θ)²` is nonzero: the returned pair satisfies the
system, and any pair satisfying the system equals it. -/
theorem computeDynamics_solves_system (p : Params) (θ dx dθ F : ℝ)
    (hdet : detM p θ ≠ 0) :
    massMatrixMul p θ (computeDynamics p θ dx dθ F).1
        (computeDynamics p θ dx dθ F).2 = rhsVec p θ dx dθ F ∧
    ∀ ax aθ : ℝ, massMatrixMul p θ ax aθ = rhsVec p θ dx dθ F →
      (ax, aθ) = computeDynamics p θ dx dθ F := by
  obtain ⟨Mc, m, l, vis⟩ := p
  simp only [computeDynamics, massMatrixMul, rhsVec, detM] at *
  constructor
  · refine Prod.ext ?_ ?_ <;>
      (field_simp; ring)
  · intro ax aθ h
    rw [Prod.mk.injEq] at h
    obtain ⟨h1, h2⟩ := h
    refine Prod.ext ?_ ?_
    · field_simp
      linear_combination (m * l ^ 2) * h1 + (m * l * Real.cos θ) * h2
    · field_simp
      linear_combination (m * l * Real.cos θ) * h1 + (Mc + m) * h2

/-- Closed instantiation of `computeDynamics_solves_system` at concrete
parameters with nonzero determinant. -/
theorem computeDynamics_solves_system_witness :
    detM ⟨1, 1, 1, 0⟩ 0 ≠ 0 ∧
    massMatrixMul ⟨1, 1, 1, 0⟩ 0 (computeDynamics ⟨1, 1, 1, 0⟩ 0 0 0 0).1
        (computeDynamics ⟨1, 1, 1, 0⟩ 0 0 0 0).2 = rhsVec ⟨1, 1, 1, 0⟩ 0 0 0 0 := by
  have hdet : detM ⟨1, 1, 1, 0⟩ 0 ≠ 0 := by
    norm_num [detM, Real.cos_zero]
  exact ⟨hdet, (computeDynamics_solves_system ⟨1, 1, 1, 0⟩ 0 0 0 0 hdet).1⟩

/-- Claim C2: one advance step updates velocities first,
`v' = (ẋ, θ̇) + accel·dt` with `accel` computed from the current state and
control, then positions with the already-updated velocities,
`p' = (x, θ) + v'·dt`, and the resulting state is `(p'.x, p'.θ, v'.ẋ, v'.θ̇)`
(semi-implicit Euler). -/
theorem incr_semi_implicit (p : Params) (s : PState) (F dt : ℝ) :
    (incr p s F dt).dx = s.dx + (computeDynamics p s.θ s.dx s.dθ F).1 * dt ∧
    (incr p s F dt).dθ = s.dθ + (computeDynamics p s.θ s.dx s.dθ F).2 * dt ∧
    (incr p s F dt).x = s.x + (incr p s F dt).dx * dt ∧
    (incr p s F dt).θ = s.θ + (incr p s F dt).dθ * dt :=
  ⟨rfl, rfl, rfl, rfl⟩

/-- Claim C3: with positive cart mass, pendulum mass and pendulum length,
advancing the entity from the zero state with control force `(0)` by any
`dt ≥ 0` yields exactly the zero state again. -/
theorem incr_zero_fixed_point (e : Entity) (dt : ℝ)
    (hstate : e.stateVec = List.replicate 4 0)
    (hforce : ∀ t, e.forceSIN t = [0])
    (hM : 0 < e.cartMass_) (hm : 0 < e.pendulumMass_)
    (hl : 0 < e.pendulumLength_) (hdt : 0 ≤ dt) :
    (incrE e dt).stateVec = List.replicate 4 0 := by
  simp [incrE, hstate, hforce, writeState, readState, incr, computeDynamics,
    Real.sin_zero, Real.cos_zero, List.replicate]

/-- Closed instantiation of `incr_zero_fixed_point` at concrete parameters. -/
theorem incr_zero_fixed_point_witness :
    (mkEntity nameA 1 1 1 1 fun _ => [0]).stateVec = List.replicate 4 0 ∧
    (∀ t, (mkEntity nameA 1 1 1 1 fun _ => [0]).forceSIN t = [0]) ∧
    (0 : ℝ) < 1 ∧ (0 : ℝ) ≤ 0 ∧
    (incrE (mkEntity nameA 1 1 1 1 fun _ => [0]) 0).stateVec
      = List.replicate 4 0 := by
  refine ⟨rfl, fun _ => rfl, one_pos, le_refl 0, ?_⟩
  exact incr_zero_fixed_point (mkEntity nameA 1 1 1 1 fun _ => [0]) 0 rfl
    (fun _ => rfl) one_pos one_pos one_pos (le_refl 0)

/-- Claim C4: from state `(0, 0.1, 0, 0)` with control `(0)` and parameters
`M = 1, m = 0.1, l = 1, λ = 0` (with `g = 9.81`), the dynamics produces a
positive angular acceleration `θ̈ > 0`, and the advance step with `dt = 0.01`
moves `θ` further away from `0`. -/
theorem fall_direction_pos :
    0 < (computeDynamics ⟨1, 0.1, 1, 0⟩ 0.1 0 0 0).2 ∧
    0.1 < (incr ⟨1, 0.1, 1, 0⟩ ⟨0, 0.1, 0, 0⟩ 0 0.01).θ := by
  have hs : 0 < Real.sin 0.1 :=
    Real.sin_pos_of_pos_of_lt_pi (by norm_num)
      (by linarith [Real.pi_gt_three])
  have hc : Real.cos 0.1 ^ 2 ≤ 1 := Real.cos_sq_le_one 0.1
  have hd : 0 < detM ⟨1, 0.1, 1, 0⟩ 0.1 := by
    simp only [detM]
    nlinarith [hc]
  have ha : 0 < (computeDynamics ⟨1, 0.1, 1, 0⟩ 0.1 0 0 0).2 := by
    simp only [computeDynamics, gravity]
    apply div_pos ?_ hd
    nlinarith [hs]
  refine ⟨ha, ?_⟩
  have hθ : (incr ⟨1, 0.1, 1, 0⟩ ⟨0, 0.1, 0, 0⟩ 0 0.01).θ
      = 0.1 + (0 + (computeDynamics ⟨1, 0.1, 1, 0⟩ 0.1 0 0 0).2 * 0.01) * 0.01 :=
    rfl
  rw [hθ]
  nlinarith [ha]

/-- Claim C5: after `setPendulumLength(0)`, the mass-matrix determinant is
exactly zero at every state, so the unguarded division of an advance step is
degenerate: the step still returns (no error is raised; the model is total)
and the result is the non-finite marker `none`. -/
theorem zero_length_nonfinite (e : Entity) (s : PState) (F dt : ℝ) :
    detM (setPendulumLength e 0).params s.θ = 0 ∧
    incrFinite (setPendulumLength e 0).params s F dt = none := by
  have h : detM (setPendulumLength e 0).params s.θ = 0 := by
    simp [detM, setPendulumLength, Entity.params]
  exact ⟨h, by simp [incrFinite, h]⟩

/-- Claim C6: every setter/getter pair round-trips exactly, for every real
value of the argument (zero and negative included); setters are total and
store the argument unchanged. -/
theorem set_get_roundtrip (e : Entity) (v : ℝ) :
    getCartMass (setCartMass e v) = v ∧
    getPendulumMass (setPendulumMass e v) = v ∧
    getPendulumLength (setPendulumLength e v) = v :=
  ⟨rfl, rfl, rfl⟩

/-- Claim C7: the advance computation is deterministic: two entities (built
possibly under different names) with identical parameter settings, identical
stored state and time stamp, and identical control input sequences, produce
identical state trajectories under the same sequence of time steps. -/
theorem run_deterministic (e1 e2 : Entity) (dts : List ℝ)
    (hM : e1.cartMass_ = e2.cartMass_)
    (hm : e1.pendulumMass_ = e2.pendulumMass_)
    (hl : e1.pendulumLength_ = e2.pendulumLength_)
    (hv : e1.viscosity_ = e2.viscosity_)
    (hs : e1.stateVec = e2.stateVec)
    (ht : e1.stateTime = e2.stateTime)
    (hf : e1.forceSIN = e2.forceSIN) :
    runSteps e1 dts = runSteps e2 dts := by
  induction dts generalizing e1 e2 with
  | nil => rfl
  | cons dt rest ih =>
    have hvec : (incrE e1 dt).stateVec = (incrE e2 dt).stateVec := by
      simp [incrE, Entity.params, hM, hm, hl, hv, hs, ht, hf]
    have hstep : runSteps (incrE e1 dt) rest = runSteps (incrE e2 dt) rest := by
      refine ih (incrE e1 dt) (incrE e2 dt) hM hm hl hv hvec ?_ hf
      simp [incrE, ht]
    simp only [runSteps, hvec, hstep]

/-- Closed instantiation of `run_deterministic`: two entities differing only
in their construction name follow the same trajectory. -/
theorem run_deterministic_witness :
    runSteps (mkEntity nameA 1 1 1 1 fun _ => [0]) [1]
      = runSteps (mkEntity nameB 1 1 1 1 fun _ => [0]) [1] :=
  run_deterministic (mkEntity nameA 1 1 1 1 fun _ => [0])
    (mkEntity nameB 1 1 1 1 fun _ => [0]) [1] rfl rfl rfl rfl rfl rfl rfl

/-- Claim C8: the state vector is created zero-valued with exactly 4
components at construction; an advance always writes exactly 4 components;
the parameter setters leave the state vector untouched; and a pull preserves
the 4-component invariant. -/
theorem state_four_components :
    (∀ inName M0 m0 l0 vis0 f,
        (mkEntity inName M0 m0 l0 vis0 f).stateVec = List.replicate 4 0) ∧
    (∀ e dt, ((incrE e dt).stateVec).length = 4) ∧
    (∀ e v, (setCartMass e v).stateVec = e.stateVec ∧
        (setPendulumMass e v).stateVec = e.stateVec ∧
        (setPendulumLength e v).stateVec = e.stateVec) ∧
    (∀ e t dt, e.stateVec.length = 4 →
        ((pullState e t dt).2.1).stateVec.length = 4) := by
  refine ⟨fun _ _ _ _ _ _ => rfl, fun e dt => rfl,
    fun e v => ⟨rfl, rfl, rfl⟩, fun e t dt h => ?_⟩
  by_cases hc : e.stateTime = t
  · simpa [pullState, hc] using h
  · simp [pullState, hc, writeState]

/-- Closed instantiation of `state_four_components`, with the pull case
applied at a concrete entity whose state vector has 4 components. -/
theorem state_four_components_witness :
    (mkEntity nameA 1 1 1 1 fun _ => [0]).stateVec = List.replicate 4 0 ∧
    (mkEntity nameA 1 1 1 1 fun _ => [0]).stateVec.length = 4 ∧
    ((pullState (mkEntity nameA 1 1 1 1 fun _ => [0]) 5 1).2.1).stateVec.length
      = 4 :=
  ⟨state_four_components.1 nameA 1 1 1 1 fun _ => [0], rfl,
    state_four_components.2.2.2 (mkEntity nameA 1 1 1 1 fun _ => [0]) 5 1 rfl⟩

/-- Claim C9: for a fixed time index, a second pull of the `stateSOUT` port
without an intervening advance returns the same value, does not change the
entity, and performs zero dynamics invocations and zero `forceSIN` pulls
(memoization keyed by time index). -/
theorem pull_memoized (e : Entity) (t : Int) (dt dt' : ℝ) :
    (pullState (pullState e t dt).2.1 t dt').1 = (pullState e t dt).1 ∧
    (pullState (pullState e t dt).2.1 t dt').2.2 = 0 ∧
    (pullState (pullState e t dt).2.1 t dt').2.1 = (pullState e t dt).2.1 := by
  by_cases h : e.stateTime = t
  · simp [pullState, h]
  · simp [pullState, h]

/-- Claim C10: the viscosity coefficient is a private field with no public
accessor: no public operation of the entity (parameter setters, advance,
port pull) changes it after construction. -/
theorem viscosity_immutable (op : PublicOp) (e : Entity) :
    (applyOp op e).viscosity_ = e.viscosity_ := by
  cases op with
  | opSetCartMass v => rfl
  | opSetPendulumMass v => rfl
  | opSetPendulumLength v => rfl
  | opIncr dt => rfl
  | opPullState t dt =>
    by_cases h : e.stateTime = t <;> simp [applyOp, pullState, h]

end

end DynamicGraphTutorial
